import Mathlib

/-!
Shallow embedding of `steps/container.py` (behave-test-steps): the `Container`
test-fixture class that manages a docker container's lifecycle.

The external docker engine is modelled by an `Engine` record of oracles (what
the daemon would answer to each call), and engine-affecting calls are recorded
as `Event`s so theorems can speak about which requests a method issues.
Python exceptions are modelled with `PyError`; mutable state is passed
explicitly, and a method that can raise returns the state reached at the point
of the raise together with `Option PyError`.

Python dictionaries are modelled as association lists with unique keys in
insertion order (`Dict`), with `dictUpdate1` as single-key assignment and
`dictUpdate` as `dict.update`.
-/

/-- Errors a Python statement of this module can raise. -/
inductive PyError where
  /-- attribute access / method call on `None` (e.g. `None.extend`, `None.get`). -/
  | attributeError
  /-- unpacking failure, e.g. `name, value = s.split('=', 1)` with no `=` in `s`. -/
  | valueError
  /-- calling a non-callable, e.g. `self.remove_image()` when the attribute is a bool. -/
  | typeError
  /-- the engine error raised by `d.remove_container` that `_remove_container` re-raises. -/
  | removalError
  deriving DecidableEq, Repr

/-- A Python `dict` from `str` to `str`: association list, unique keys, insertion order. -/
abbrev Dict := List (String × String)

/-- Python `d[k] = v`: replace the value at the first (only) occurrence of `k`,
keeping its position; append `(k, v)` when `k` is absent. -/
def dictUpdate1 : Dict → String → String → Dict
  | [], k, v => [(k, v)]
  | (k0, v0) :: rest, k, v =>
    if k0 = k then (k, v) :: rest else (k0, v0) :: dictUpdate1 rest k v

/-- Python `d.update(u)`: assign every pair of `u` into `d`, in order. -/
def dictUpdate (d u : Dict) : Dict :=
  u.foldl (fun acc p => dictUpdate1 acc p.1 p.2) d

/-- Python `d.get(k)` / `k in d` combined: the value at `k`, if present. -/
def dictGet : Dict → String → Option String
  | [], _ => none
  | (k0, v0) :: rest, k => if k0 = k then some v0 else dictGet rest k

/-- The keys of a dict are pairwise distinct (true of every real Python dict). -/
def keysNodup (d : Dict) : Prop := (d.map Prod.fst).Nodup

/-- Python `s.split(sep)` for a single-character separator, on the character
list: separators delimit fields, empty fields included, and the empty string
yields one empty field (`"".split(',') == ['']`). -/
def splitCharList (sep : Char) : List Char → List (List Char)
  | [] => [[]]
  | c :: rest =>
    match splitCharList sep rest with
    | [] => if c = sep then [[], []] else [[c]]
    | h :: t => if c = sep then [] :: h :: t else (c :: h) :: t

/-- Python `s.split(sep)` for a single-character separator, on strings. -/
def pySplit (sep : Char) (s : String) : List String :=
  (splitCharList sep s.toList).map String.mk

/-- Python `s.split(sep, 1)` for a single-character separator: the text before
the first separator and the text after it, or `none` when the separator does
not occur (so that unpacking into two names raises `ValueError`). -/
def splitCharOnce (sep : Char) : List Char → Option (List Char × List Char)
  | [] => none
  | c :: rest =>
    if c = sep then some ([], rest)
    else (splitCharOnce sep rest).map (fun p => (c :: p.1, p.2))

/-- Python `name, value = s.split('=', 1)`: `none` models the `ValueError`
raised when `s` has no `=`. -/
def split_eq1 (s : String) : Option (String × String) :=
  (splitCharOnce '=' s.toList).map (fun p => (String.mk p.1, String.mk p.2))

/-- What the external docker daemon would answer to each call this module makes. -/
structure Engine where
  /-- Models `d.logs(container=..., stream=False)`. -/
  logs : String
  /-- Models `inspect()['NetworkSettings']['IPAddress']`. -/
  inspectIP : String
  /-- Models `inspect()['State']['Running']`. -/
  inspectRunning : Bool
  /-- whether the n-th `d.remove_container` attempt of a `stop` succeeds (n = 1, 2, ...). -/
  removeOk : Nat → Bool
  /-- the output captured by `d.exec_start(inst, detach=False)`. -/
  execOutput : String
  /-- Models `d.exec_inspect(inst)['ExitCode']` at the n-th inspection: n = 0 is the
  call before the polling loop, n = 1, 2, ... the in-loop polls. `none` is the
  engine still reporting the exit code as unknown (Python `None`). -/
  execExitCodes : Nat → Option Int
  /-- the `Id` of the container `d.create_container` returns. -/
  createdId : String
  /-- Models `os.path.exists(self.output_dir)` at `stop` time. -/
  outputDirExists : Bool

/-- The keyword arguments of `_create_container` that the claims touch.  Other
passthrough kwargs and the host-config partitioning (which introspects the
installed docker library's `create_host_config` signature) are outside the
model. `env_json` is carried already JSON-decoded: `json.loads` is the
standard library's and is modelled as the identity on the decoded mapping. -/
structure Kwargs where
  environment : Option Dict
  env_json : Option Dict
  deriving DecidableEq, Repr

/-- The creation request `_create_container` finally sends to
`d.create_container(image=..., detach=True, entrypoint=..., volumes=..., host_config=..., **kwargs)`. -/
structure CreateRequest where
  image : String
  entrypoint : Option String
  /-- Models `volumes=volume_mount_points`. -/
  volume_mount_points : Option (List String)
  /-- Models `host_args['binds']`, when volumes are truthy. -/
  binds : Option (List String)
  /-- the remaining `**kwargs` (after the environment merge and `del kwargs["env_json"]`). -/
  kwargs : Kwargs
  deriving DecidableEq, Repr

/-- Engine-affecting calls a method issues, in order. -/
inductive Event where
  /-- Models `d.create_container(...)`. -/
  | createReq (r : CreateRequest)
  /-- Models `d.start(container=self.container)`, with the handle's container value. -/
  | engineStart (container : Option String)
  /-- Models `d.kill(container=self.container)`. -/
  | kill
  /-- the n-th `d.remove_container` attempt. -/
  | removeAttempt (n : Nat)
  /-- Models `time.sleep(20)` between removal attempts. -/
  | sleep20
  /-- Models `os.makedirs(self.output_dir)`. -/
  | makedirs (dir : String)
  /-- the write performed by `print(d.logs(...), file=f)` on the opened file. -/
  | writeFile (path : String) (contents : String)
  deriving DecidableEq, Repr

/-- The state of a `Container` handle (the instance attributes set in `__init__`
and mutated by the methods).  `container` holds just the engine-assigned `Id`
of the container dict, the only field of it the module reads. -/
structure Container where
  image_id : String
  container : Option String
  name : Option String
  ip_address : Option String
  output_dir : String
  save_output : Bool
  /-- the boolean constructor argument; it shadows the method of the same name. -/
  remove_image : Bool
  running : Bool
  volumes : Option (List String)
  environ : Dict
  entrypoint : Option String
  deriving DecidableEq, Repr

/-- The ambient process environment read by `__init__`. -/
structure Ambient where
  /-- Models `os.environ["CTF_DOCKER_VOLUMES"]`, when set. -/
  ctf_docker_volumes : Option String
  /-- Models `os.environ["CTF_DOCKER_ENV"]`, when set. -/
  ctf_docker_env : Option String
  deriving DecidableEq, Repr

/-- The body of the volumes `try:` block in `__init__`:
`self.volumes = [] if self.volumes is None else None` followed by
`self.volumes.extend(os.environ["CTF_DOCKER_VOLUMES"].split(','))`.
When explicit volumes exist, the conditional expression stores `None` and the
`extend` call raises `AttributeError`. -/
def volumesTryBody (explicit : Option (List String)) (s : String) :
    Except PyError (Option (List String)) :=
  match explicit with
  | none => .ok (some (pySplit ',' s))
  | some _ => .error .attributeError

/-- Models `self.volumes` after the volumes block of `__init__`, its `except` handler
included: an exception is logged and swallowed, and `self.volumes` keeps the
value it had at the raise point, which is `None` (the assignment ran first). -/
def initVolumes (explicit : Option (List String)) : Option String → Option (List String)
  | none => explicit
  | some s =>
    match volumesTryBody explicit s with
    | .ok v => v
    | .error _ => none

/-- The loop body of the env `try:` block in `__init__`: for each
comma-separated item, `name, value = variable.split('=', 1)` then
`self.environ.update({name: value})`.  An unpacking failure raises
`ValueError`, aborting the loop; the error carries the environ built so far
(Python's `self.environ` keeps the updates already applied). -/
def envTryBody : List String → Dict → Except (PyError × Dict) Dict
  | [], acc => .ok acc
  | v :: rest, acc =>
    match split_eq1 v with
    | none => .error (.valueError, acc)
    | some kv => envTryBody rest (dictUpdate1 acc kv.1 kv.2)

/-- Models `self.environ` after the env block of `__init__`, its `except` handler
included: a raise is logged and swallowed, keeping the partially-built dict. -/
def initEnviron : Option String → Dict
  | none => []
  | some s =>
    match envTryBody (pySplit ',' s) [] with
    | .ok d => d
    | .error ed => ed.2

/-- Models `Container.__init__`: store the constructor arguments and fold in the two
ambient override variables, each inside a logged-and-swallowed `try:` block. -/
def Container.init (image_id : String) (name : Option String) (remove_image : Bool)
    (output_dir : String) (save_output : Bool) (volumes : Option (List String))
    (entrypoint : Option String) (amb : Ambient) : Container :=
  { image_id := image_id
    container := none
    name := name
    ip_address := none
    output_dir := output_dir
    save_output := save_output
    remove_image := remove_image
    running := false
    volumes := initVolumes volumes amb.ctf_docker_volumes
    environ := initEnviron amb.ctf_docker_env
    entrypoint := entrypoint }

/-- One character of `re.match(r'[\w\ ]', c)`: a word character or a space
(ASCII model of `\w`: letters, digits, underscore). -/
def isWordOrSpace (c : Char) : Bool :=
  c.isAlphanum || c = '_' || c = ' '

/-- Models `"".join([c for c in name if re.match(r'[\w\ ]', c)]).replace(" ", "_")`:
keep word characters and spaces, then turn each space into an underscore (a
single-character `replace` is exactly a character map). -/
def sanitize (s : String) : String :=
  String.mk ((s.toList.filter isWordOrSpace).map (fun c => if c = ' ' then '_' else c))

/-- Python truthiness of the optional `self.name`: `None` and `""` are falsy. -/
def truthyName : Option String → Bool
  | some s => !s.isEmpty
  | none => false

/-- The log name `stop` stores back into `self.name`:
`"%s_%s" % (self.name, self.container.get('Id'))` when `self.name` is truthy,
else the container `Id` alone. -/
def composeLogName (name : Option String) (cid : String) : String :=
  if truthyName name then name.getD "" ++ "_" ++ cid else cid

/-- The recursion of `_remove_container(self, number)`: try
`d.remove_container`; on failure re-raise when `number > 3`, otherwise
`time.sleep(20)` and recurse with `number + 1`.  `fuel` is the structural
bound `4 - number`; the call below always supplies it, so the `fuel = 0`
case is reached only with `number = 4`, where a failure re-raises at once.
Returns `true` when a removal attempt succeeded, `false` when the removal
error propagates, together with the events issued. -/
def removeLoop (removeOk : Nat → Bool) : Nat → Nat → Bool × List Event
  | 0, number => (removeOk number, [Event.removeAttempt number])
  | fuel + 1, number =>
    if removeOk number then (true, [Event.removeAttempt number])
    else if number > 3 then (false, [Event.removeAttempt number])
    else
      let r := removeLoop removeOk fuel (number + 1)
      (r.1, Event.removeAttempt number :: Event.sleep20 :: r.2)

/-- Models `Container._remove_container()` as called by `stop` (default `number=1`,
hence attempts numbered 1, 2, 3, 4). -/
def Container.remove_container (removeOk : Nat → Bool) : Bool × List Event :=
  removeLoop removeOk 3 1

/-- Models `Container.inspect()`: `d.inspect_container(...)` when a container exists,
else Python `None`.  Only the two fields the module reads are modelled. -/
def Container.inspect (c : Container) (eng : Engine) : Option (String × Bool) :=
  match c.container with
  | some _ => some (eng.inspectIP, eng.inspectRunning)
  | none => none

/-- The second half of `stop`: `if self.container:` kill the container when the
engine reports it running, set `running = False`, run the removal retry, and
clear `self.container` only after a successful removal (a removal error
propagates before the `self.container = None` line runs). -/
def stopRemovePhase (c : Container) (eng : Engine) (evs : List Event) :
    Container × List Event × Option PyError :=
  match c.container with
  | none => (c, evs, none)
  | some _ =>
    let evs := evs ++ (if eng.inspectRunning then [Event.kill] else [])
    let c := { c with running := false }
    let r := Container.remove_container eng.removeOk
    if r.1 then ({ c with container := none }, evs ++ r.2, none)
    else (c, evs ++ r.2, some PyError.removalError)

/-- Models `Container.stop()`: when `self.running and self.save_output`, compose the
log name from `self.name` and the container `Id` (an `AttributeError` escapes
if `self.container` is `None` there), sanitize it, `makedirs` the output
directory when missing, and write the engine logs to
`<output_dir>/<sanitized>.txt` — `print(..., file=f)` appends a newline.
Then remove the container via `stopRemovePhase`. -/
def Container.stop (c : Container) (eng : Engine) :
    Container × List Event × Option PyError :=
  if c.running && c.save_output then
    match c.container with
    | none => (c, [], some PyError.attributeError)
    | some cid =>
      let newName := composeLogName c.name cid
      let c := { c with name := some newName }
      let out_path := c.output_dir ++ "/" ++ sanitize newName ++ ".txt"
      let evs := (if eng.outputDirExists then [] else [Event.makedirs c.output_dir])
        ++ [Event.writeFile out_path (eng.logs ++ "\n")]
      stopRemovePhase c eng evs
  else stopRemovePhase c eng []

/-- Models `Container.__exit__`: call `self.stop()`; then `if self.remove_image:
self.remove_image()`.  The instance attribute `self.remove_image` is the
boolean stored by `__init__`, which shadows the `remove_image` method, so the
call applies a `bool` and raises `TypeError`.  The exception arguments are
ignored by the source and omitted here. -/
def Container.exitCtx (c : Container) (eng : Engine) :
    Container × List Event × Option PyError :=
  match c.stop eng with
  | (c1, evs, some e) => (c1, evs, some e)
  | (c1, evs, none) =>
    if c1.remove_image then (c1, evs, some PyError.typeError)
    else (c1, evs, none)

/-- Models `Container._create_container(**kwargs)`: no-op when `self.running`;
otherwise compute the volume mount points and binds from truthy
`self.volumes`, merge `kwargs["environment"]` with `self.environ` (instance
values win), fold in the decoded `env_json` mapping when present and delete
that key, and issue the `d.create_container` request, storing the returned
container.  Returns the request issued, if any. -/
def Container.create_container (c : Container) (kw : Kwargs) (eng : Engine) :
    Container × List Event × Option CreateRequest :=
  if c.running then (c, [], none)
  else
    let vmp : Option (List String) :=
      match c.volumes with
      | some vs => if vs.isEmpty then none else some (vs.map (fun v => (pySplit ':' v).headD ""))
      | none => none
    let binds : Option (List String) :=
      match c.volumes with
      | some vs => if vs.isEmpty then none else some vs
      | none => none
    let kwargs_env := dictUpdate (kw.environment.getD []) c.environ
    let kw := { kw with environment := some kwargs_env }
    let kw :=
      match kw.env_json with
      | none => kw
      | some ej =>
        { kw with environment := some (dictUpdate (kw.environment.getD []) ej)
                  env_json := none }
    let req : CreateRequest :=
      { image := c.image_id
        entrypoint := c.entrypoint
        volume_mount_points := vmp
        binds := binds
        kwargs := kw }
    ({ c with container := some eng.createdId }, [Event.createReq req], some req)

/-- Models `Container.start(**kwargs)`: `self._create_container(**kwargs)`, then —
unconditionally — `d.start(container=self.container)`, `self.running = True`,
and `self.ip_address = self.inspect()['NetworkSettings']['IPAddress']`
(a `TypeError` escapes if `inspect` returned `None`). -/
def Container.start (c : Container) (kw : Kwargs) (eng : Engine) :
    Container × List Event × Option PyError :=
  let r := c.create_container kw eng
  let c1 := r.1
  let evs := r.2.1 ++ [Event.engineStart c1.container]
  let c2 := { c1 with running := true }
  match c2.inspect eng with
  | some info => ({ c2 with ip_address := some info.1 }, evs, none)
  | none => (c2, evs, some PyError.typeError)

/-- The result of `Container.execute`: Python `None` for the detach branch,
the captured output on success, or a raised `ExecException` with its message
and its `output` attribute (`none` when the constructor was called without
the second argument). -/
inductive ExecOutcome where
  | detached
  | ok (output : String)
  | execError (message : String) (output : Option String)
  deriving DecidableEq, Repr

/-- The `while retcode is None:` polling loop of `execute`: `count += 1`,
re-inspect the exit code, `time.sleep(1)`, and `raise ExecException(...)` once
`count > 15` — before the loop condition is re-checked.  `fuel` is the
structural bound `16 - count`; the call below supplies `fuel = 16, count = 0`,
and the raise at `count = 16` fires before `fuel` can reach `0` with an
unresolved code, so the first case is reached only with a resolved code.
`.ok (rc, polls)` is a resolved exit code after `polls` in-loop inspections;
`.error polls` is the timeout raise after `polls` in-loop inspections. -/
def pollLoop (exitCodes : Nat → Option Int) : Nat → Nat → Option Int → Except Nat (Int × Nat)
  | 0, count, some rc => .ok (rc, count)
  | 0, count, none => .error (count + 1)
  | _ + 1, count, some rc => .ok (rc, count)
  | fuel + 1, count, none =>
    let c := count + 1
    let rc := exitCodes c
    if c > 15 then .error c
    else pollLoop exitCodes fuel c rc

/-- Models `Container.execute(cmd, detach)`: `d.exec_create`, then either the detach
branch (returns `None`), or capture the output, read the exit code, poll it
while unknown, and raise on timeout or on a non-zero code (the timeout
`ExecException` is built with the message only, so its `output` attribute is
`None`; the non-zero one attaches the captured output).  The second component
counts the in-loop `d.exec_inspect` calls. -/
def Container.execute (_c : Container) (eng : Engine) (cmd : String) (detach : Bool) :
    ExecOutcome × Nat :=
  if detach then (ExecOutcome.detached, 0)
  else
    let output := eng.execOutput
    let retcode := eng.execExitCodes 0
    match pollLoop eng.execExitCodes 16 0 retcode with
    | .error polls =>
      (ExecOutcome.execError ("Command " ++ cmd ++ " timed out, output: " ++ output) none, polls)
    | .ok (rc, polls) =>
      if rc != 0 then
        (ExecOutcome.execError
          ("Command " ++ cmd ++ " failed to execute, return code: " ++ toString rc)
          (some output), polls)
      else (ExecOutcome.ok output, polls)

/-- Substring occurrence: `sub` occurs somewhere inside `s`. -/
def containsStr (s sub : String) : Prop := ∃ a b, s = a ++ sub ++ b

/-- The number of `removeAttempt` events in a trace. -/
def countRemoveAttempts : List Event → Nat
  | [] => 0
  | Event.removeAttempt _ :: rest => countRemoveAttempts rest + 1
  | _ :: rest => countRemoveAttempts rest

/-- First-hit alternative on optional values, as Python attribute precedence:
take the left value when present, else the right. -/
def optOr (a b : Option String) : Option String :=
  match a with
  | some v => some v
  | none => b

/-! Helper lemmas about the dict model. -/

/-- Assigning key `k` changes the lookup at `k` and nothing else. -/
theorem dictGet_update1 (d : Dict) (k v k' : String) :
    dictGet (dictUpdate1 d k v) k' = if k' = k then some v else dictGet d k' := by
  induction d with
  | nil =>
    by_cases h : k' = k
    · subst h; simp [dictUpdate1, dictGet]
    · simp [dictUpdate1, dictGet, h, Ne.symm h]
  | cons p rest ih =>
    obtain ⟨k0, v0⟩ := p
    by_cases h0 : k0 = k
    · subst h0
      by_cases h : k' = k0
      · subst h; simp [dictUpdate1, dictGet]
      · simp [dictUpdate1, dictGet, h, Ne.symm h]
    · by_cases h1 : k0 = k'
      · subst h1
        simp [dictUpdate1, dictGet, h0, Ne.symm h0]
      · simp [dictUpdate1, dictGet, h0, h1, ih]

/-- A key outside a dict's key list looks up to nothing. -/
theorem dictGet_eq_none_of_not_mem {d : Dict} {k : String}
    (h : k ∉ d.map Prod.fst) : dictGet d k = none := by
  induction d with
  | nil => rfl
  | cons p rest ih =>
    simp only [List.map_cons, List.mem_cons] at h
    push_neg at h
    simp [dictGet, Ne.symm h.1, ih h.2]

/-- Semantics of `dict.update` on lookups, for an updater with distinct keys
(true of every Python dict): the updater's value wins, the base value
survives otherwise. -/
theorem dictGet_update (d u : Dict) (hu : keysNodup u) (k : String) :
    dictGet (dictUpdate d u) k = optOr (dictGet u k) (dictGet d k) := by
  induction u generalizing d with
  | nil => simp [dictUpdate, dictGet, optOr]
  | cons p rest ih =>
    obtain ⟨k0, v0⟩ := p
    have hnd : keysNodup rest := by
      simpa [keysNodup] using (List.nodup_cons.mp hu).2
    have hk0 : k0 ∉ rest.map Prod.fst := by
      simpa [keysNodup] using (List.nodup_cons.mp hu).1
    have hfold : dictUpdate d ((k0, v0) :: rest) = dictUpdate (dictUpdate1 d k0 v0) rest := rfl
    rw [hfold, ih _ hnd]
    by_cases h : k = k0
    · subst h
      rw [dictGet_eq_none_of_not_mem hk0, dictGet_update1]
      simp [dictGet, optOr]
    · rw [dictGet_update1]
      simp [dictGet, optOr, h, Ne.symm h]

/-! Helper lemmas about the retry and polling loops. -/

/-- Unfolding of one step of the removal retry. -/
theorem removeLoop_succ (f : Nat → Bool) (fuel number : Nat) :
    removeLoop f (fuel + 1) number =
      if f number then (true, [Event.removeAttempt number])
      else if number > 3 then (false, [Event.removeAttempt number])
      else
        (let r := removeLoop f fuel (number + 1)
         (r.1, Event.removeAttempt number :: Event.sleep20 :: r.2)) := rfl

/-- When the engine fails every attempt, the retry makes exactly the four
attempts and reports the propagating failure. -/
theorem remove_container_all_fail (f : Nat → Bool)
    (hfail : ∀ i, 1 ≤ i → i ≤ 4 → f i = false) :
    Container.remove_container f =
      (false,
        [Event.removeAttempt 1, Event.sleep20, Event.removeAttempt 2, Event.sleep20,
         Event.removeAttempt 3, Event.sleep20, Event.removeAttempt 4]) := by
  have e1 := hfail 1 (by norm_num) (by norm_num)
  have e2 := hfail 2 (by norm_num) (by norm_num)
  have e3 := hfail 3 (by norm_num) (by norm_num)
  have e4 := hfail 4 (by norm_num) (by norm_num)
  simp [Container.remove_container, removeLoop_succ, removeLoop, e1, e2, e3, e4]

/-- When the engine's exit code stays unknown forever, the polling loop always
times out after its 16th in-loop inspection.  `fuel` is the structural bound,
at least 1 and agreeing with `count` as in the loop's invariant. -/
theorem pollLoop_all_none (ec : Nat → Option Int) (h : ∀ n, ec n = none) :
    ∀ fuel count, count + fuel = 16 → 1 ≤ fuel →
      pollLoop ec fuel count none = Except.error 16 := by
  intro fuel
  induction fuel with
  | zero => intro count h1 h2; omega
  | succ f ih =>
    intro count h1 _
    by_cases hf : f = 0
    · subst hf
      have hc : count = 15 := by omega
      subst hc
      simp [pollLoop]
    · have hc : ¬ (count + 1 > 15) := by omega
      rw [pollLoop]
      simp only [hc, if_false, h (count + 1)]
      exact ih (count + 1) (by omega) (by omega)

/-! Concrete states and engines used by the concrete instances below. -/

/-- A handle as it looks right after a successful `start`: running, with a
container id, an ip address, and output saving enabled. -/
def sampleContainer : Container :=
  { image_id := "img"
    container := some "abc123"
    name := some "my ctr"
    ip_address := some "10.0.0.1"
    output_dir := "output"
    save_output := true
    remove_image := false
    running := true
    volumes := none
    environ := []
    entrypoint := none }

/-- An engine that answers every call successfully and never resolves an exec
exit code. -/
def sampleEngine : Engine :=
  { logs := "hello"
    inspectIP := "10.0.0.2"
    inspectRunning := false
    removeOk := fun _ => true
    execOutput := "out"
    execExitCodes := fun _ => none
    createdId := "newid"
    outputDirExists := true }

/-- An engine whose container removal fails on every attempt. -/
def sampleEngineRemoveFail : Engine := { sampleEngine with removeOk := fun _ => false }

/-- An engine whose exec resolves immediately with exit code 1. -/
def sampleEngineExitOne : Engine := { sampleEngine with execExitCodes := fun _ => some 1 }

/-- An engine whose exec resolves immediately with exit code 0. -/
def sampleEngineExitZero : Engine := { sampleEngine with execExitCodes := fun _ => some 0 }

/-! Claim theorems. -/

/-- C1: the claim says a construction with non-empty explicit volumes and a
valid `CTF_DOCKER_VOLUMES` override merges both lists.  The code instead
executes `self.volumes = [] if self.volumes is None else None`, so the
explicit list is replaced by `None`, the following `extend` raises, the
`except` swallows it, and the handle ends with no volumes at all: neither the
explicit entries nor the environment entries survive. -/
theorem c1_volumes_merge_drops_everything :
    (Container.init "img" none false "output" true (some ["h1:c1:z"]) none
        { ctf_docker_volumes := some "h2:c2:z", ctf_docker_env := none }).volumes = none ∧
    (Container.init "img" none false "output" true (some ["h1:c1:z"]) none
        { ctf_docker_volumes := some "h2:c2:z", ctf_docker_env := none }).volumes ≠
      some ["h1:c1:z", "h2:c2:z"] := by
  exact ⟨rfl, by decide⟩

/-- C2: the claim says exiting a `with` block always stops the container and,
with `remove_image` true, additionally removes the image without raising.
`stop` is indeed always invoked (the removal attempt below happened, the
container reference was cleared, `running` is false), but the subsequent
`self.remove_image()` applies the boolean attribute that shadows the method,
so `__exit__` raises `TypeError` instead of removing the image. -/
theorem c2_exit_raises_type_error :
    ({ sampleContainer with remove_image := true, save_output := false }.exitCtx
        sampleEngine).2.2 = some PyError.typeError ∧
    ({ sampleContainer with remove_image := true, save_output := false }.exitCtx
        sampleEngine).2.1 = [Event.removeAttempt 1] ∧
    ({ sampleContainer with remove_image := true, save_output := false }.exitCtx
        sampleEngine).1.running = false ∧
    ({ sampleContainer with remove_image := true, save_output := false }.exitCtx
        sampleEngine).1.container = none := by
  exact ⟨rfl, rfl, rfl, rfl⟩

/-- C3 counterexample: with an exit code that never resolves, `execute` makes
16 in-loop polls — not at most 15 — and the `ExecException` it raises carries
`None` as its attached output (the captured output appears only in the
message text). -/
theorem c3_poll_count_counterexample :
    sampleContainer.execute sampleEngine "cmd" false =
      (ExecOutcome.execError "Command cmd timed out, output: out" none, 16) ∧
    ¬ (16 ≤ 15) := by
  exact ⟨rfl, by norm_num⟩

/-- C3 (amended): for every non-detached `execute` whose exec exit code never
resolves, the code polls the exit code exactly 16 times inside the retry loop
(with a 1-second sleep after each poll) and then raises an `ExecException`
whose message text includes the captured output but whose attached `output`
attribute is `None`. -/
theorem c3_timeout_behaviour (c : Container) (eng : Engine) (cmd : String)
    (h : ∀ n, eng.execExitCodes n = none) :
    c.execute eng cmd false =
      (ExecOutcome.execError
        ("Command " ++ cmd ++ " timed out, output: " ++ eng.execOutput) none, 16) ∧
    containsStr ("Command " ++ cmd ++ " timed out, output: " ++ eng.execOutput)
      eng.execOutput := by
  constructor
  · have hp := pollLoop_all_none eng.execExitCodes h 16 0 (by norm_num) (by norm_num)
    unfold Container.execute
    rw [h 0]
    simp [hp]
  · exact ⟨"Command " ++ cmd ++ " timed out, output: ", "",
      by rw [String.append_empty]⟩

/-- C3 witness: the amended statement at a concrete engine whose exit code
never resolves. -/
theorem c3_timeout_witness :
    sampleContainer.execute sampleEngine "cmd" false =
      (ExecOutcome.execError
        ("Command " ++ "cmd" ++ " timed out, output: " ++ sampleEngine.execOutput) none, 16) ∧
    containsStr ("Command " ++ "cmd" ++ " timed out, output: " ++ sampleEngine.execOutput)
      sampleEngine.execOutput :=
  c3_timeout_behaviour sampleContainer sampleEngine "cmd" (fun _ => rfl)

/-- C4: the removal retry of `stop`: when the engine's removal succeeds on
attempt `k ≤ 4` (all earlier attempts failing), exactly `k` removal attempts
are made and no error propagates; when all 4 attempts fail, the removal error
propagates (result flag `false`) after exactly 4 attempts. -/
theorem c4_remove_retry (f : Nat → Bool) (k : Nat) :
    (1 ≤ k → k ≤ 4 → (∀ i, 1 ≤ i → i < k → f i = false) → f k = true →
      (Container.remove_container f).1 = true ∧
      countRemoveAttempts (Container.remove_container f).2 = k) ∧
    ((∀ i, 1 ≤ i → i ≤ 4 → f i = false) →
      (Container.remove_container f).1 = false ∧
      countRemoveAttempts (Container.remove_container f).2 = 4) := by
  constructor
  · intro h1 h4 hlt hk
    interval_cases k
    · simp [Container.remove_container, removeLoop_succ, hk, countRemoveAttempts]
    · have e1 := hlt 1 (by norm_num) (by norm_num)
      simp [Container.remove_container, removeLoop_succ, e1, hk, countRemoveAttempts]
    · have e1 := hlt 1 (by norm_num) (by norm_num)
      have e2 := hlt 2 (by norm_num) (by norm_num)
      simp [Container.remove_container, removeLoop_succ, e1, e2, hk, countRemoveAttempts]
    · have e1 := hlt 1 (by norm_num) (by norm_num)
      have e2 := hlt 2 (by norm_num) (by norm_num)
      have e3 := hlt 3 (by norm_num) (by norm_num)
      simp [Container.remove_container, removeLoop_succ, removeLoop, e1, e2, e3, hk,
        countRemoveAttempts]
  · intro hall
    rw [remove_container_all_fail f hall]
    simp [countRemoveAttempts]

/-- C4 witness: success on the second attempt makes exactly two attempts with
no propagating error; failure on all attempts makes four and propagates. -/
theorem c4_remove_retry_witness :
    ((Container.remove_container (fun n => n == 2)).1 = true ∧
      countRemoveAttempts (Container.remove_container (fun n => n == 2)).2 = 2) ∧
    ((Container.remove_container (fun _ => false)).1 = false ∧
      countRemoveAttempts (Container.remove_container (fun _ => false)).2 = 4) := by
  constructor
  · exact (c4_remove_retry (fun n => n == 2) 2).1 (by norm_num) (by norm_num)
      (by intro i hi1 hi2; interval_cases i; rfl) rfl
  · exact (c4_remove_retry (fun _ => false) 0).2 (fun i _ _ => rfl)

/-- C5 counterexample: on a handle whose `running` flag is true, `start` is
not a no-op: the running guard lives only in `_create_container`, so `start`
still issues an engine start request for the existing container and
reassigns `ip_address` from a fresh inspection, changing the handle's state
when the engine reports a different address. -/
theorem c5_start_not_noop_counterexample :
    (sampleContainer.start { environment := none, env_json := none }
        sampleEngine).2.1 = [Event.engineStart (some "abc123")] ∧
    (sampleContainer.start { environment := none, env_json := none }
        sampleEngine).1.ip_address = some "10.0.0.2" ∧
    sampleContainer.ip_address = some "10.0.0.1" ∧
    (some "10.0.0.2" : Option String) ≠ some "10.0.0.1" := by
  exact ⟨rfl, rfl, rfl, by decide⟩

/-- C5 (amended): on a handle whose `running` flag is true and whose container
reference is set, calling `start` creates no container (the creation step is
the guarded no-op: no creation request, state unchanged by it), but it still
issues an engine start request for the existing container and refreshes
`ip_address` from the engine's inspection; `running` stays true and the
container reference is unchanged. -/
theorem c5_start_when_running (c : Container) (kw : Kwargs) (eng : Engine) (cid : String)
    (hr : c.running = true) (hc : c.container = some cid) :
    c.create_container kw eng = (c, [], none) ∧
    c.start kw eng =
      ({ c with ip_address := some eng.inspectIP },
        [Event.engineStart (some cid)], none) := by
  have h1 : c.create_container kw eng = (c, [], none) := by
    unfold Container.create_container
    rw [hr]
    simp
  refine ⟨h1, ?_⟩
  unfold Container.start
  rw [h1]
  unfold Container.inspect
  simp only [hc]
  simp only [Prod.mk.injEq, List.nil_append]
  obtain ⟨img, cont, nm, ip, od, so, ri, run, vols, env, ep⟩ := c
  have hrun : run = true := hr
  have hcont : cont = some cid := hc
  subst hrun
  subst hcont
  trivial

/-- C5 witness: the amended statement at a concrete running handle. -/
theorem c5_start_when_running_witness :
    sampleContainer.create_container { environment := none, env_json := none }
        sampleEngine = (sampleContainer, [], none) ∧
    sampleContainer.start { environment := none, env_json := none } sampleEngine =
      ({ sampleContainer with ip_address := some sampleEngine.inspectIP },
        [Event.engineStart (some "abc123")], none) :=
  c5_start_when_running sampleContainer { environment := none, env_json := none }
    sampleEngine "abc123" rfl rfl

/-- C6 counterexample: `stop` on a saving, running handle writes the engine
logs followed by a newline (`print` appends a line terminator), so no write
event carries exactly the engine's reported logs `"hello"`. -/
theorem c6_logfile_contents_counterexample :
    (sampleContainer.stop sampleEngine).2.1 =
      [Event.writeFile "output/my_ctr_abc123.txt" "hello\n", Event.removeAttempt 1] ∧
    Event.writeFile "output/my_ctr_abc123.txt" "hello" ∉
      (sampleContainer.stop sampleEngine).2.1 := by
  exact ⟨rfl, by decide⟩

/-- C6 (amended): every `stop` on a handle with `save_output` true, `running`
true, and a container id writes a file at
`<output_dir>/<sanitized composed name>.txt` — the constructor name joined
with the container id (id alone when the name is empty or absent), filtered
to word characters and spaces, spaces replaced by underscores — whose
contents are the engine's reported logs followed by a newline. -/
theorem c6_stop_writes_log_file (c : Container) (eng : Engine) (cid : String)
    (hr : c.running = true) (hs : c.save_output = true) (hc : c.container = some cid) :
    Event.writeFile (c.output_dir ++ "/" ++ sanitize (composeLogName c.name cid) ++ ".txt")
        (eng.logs ++ "\n") ∈ (c.stop eng).2.1 := by
  unfold Container.stop
  rw [hr, hs, hc]
  simp only [Bool.and_self, if_true]
  unfold stopRemovePhase
  simp only [hc]
  split
  · simp
  · simp

/-- C6 witness: the amended statement at a concrete handle and engine. -/
theorem c6_stop_writes_log_file_witness :
    Event.writeFile
        (sampleContainer.output_dir ++ "/" ++
          sanitize (composeLogName sampleContainer.name "abc123") ++ ".txt")
        (sampleEngine.logs ++ "\n") ∈ (sampleContainer.stop sampleEngine).2.1 :=
  c6_stop_writes_log_file sampleContainer sampleEngine "abc123" rfl rfl rfl

/-- C7: a non-detached `execute` whose exec resolves to return code `rc`:
when `rc` is non-zero it raises an `ExecException` whose message includes the
return code and whose attached output is the captured output; when `rc` is
zero it returns the captured output and raises nothing. -/
theorem c7_execute_resolved_exit_code (c : Container) (eng : Engine) (cmd : String)
    (rc : Int) (polls : Nat)
    (h : pollLoop eng.execExitCodes 16 0 (eng.execExitCodes 0) = Except.ok (rc, polls)) :
    (rc ≠ 0 →
      c.execute eng cmd false =
        (ExecOutcome.execError
          ("Command " ++ cmd ++ " failed to execute, return code: " ++ toString rc)
          (some eng.execOutput), polls) ∧
      containsStr ("Command " ++ cmd ++ " failed to execute, return code: " ++ toString rc)
        (toString rc)) ∧
    (rc = 0 → c.execute eng cmd false = (ExecOutcome.ok eng.execOutput, polls)) := by
  constructor
  · intro hne
    constructor
    · unfold Container.execute
      simp [h, hne]
    · exact ⟨"Command " ++ cmd ++ " failed to execute, return code: ", "",
        by rw [String.append_empty]⟩
  · intro h0
    subst h0
    unfold Container.execute
    simp [h]

/-- C7 witness: a concrete exec resolving to 1 raises with the output
attached, and one resolving to 0 returns the output. -/
theorem c7_execute_resolved_exit_code_witness :
    (sampleContainer.execute sampleEngineExitOne "cmd" false =
      (ExecOutcome.execError
        ("Command " ++ "cmd" ++ " failed to execute, return code: " ++ toString (1 : Int))
        (some sampleEngineExitOne.execOutput), 0) ∧
      containsStr
        ("Command " ++ "cmd" ++ " failed to execute, return code: " ++ toString (1 : Int))
        (toString (1 : Int))) ∧
    sampleContainer.execute sampleEngineExitZero "cmd" false =
      (ExecOutcome.ok sampleEngineExitZero.execOutput, 0) := by
  exact ⟨(c7_execute_resolved_exit_code sampleContainer sampleEngineExitOne "cmd" 1 0 rfl).1
      (by norm_num),
    (c7_execute_resolved_exit_code sampleContainer sampleEngineExitZero "cmd" 0 0 rfl).2 rfl⟩

/-- C8: the environment passed to the creation request is the kwargs-supplied
`environment` updated with the instance's `environ` (instance values win),
then — when `env_json` is present — updated with its decoded mapping (which
wins again), with the raw `env_json` key removed from the kwargs before the
request; a key not overridden by a later source keeps its earlier value.
The lookup identity below states exactly this precedence (`env_json`, then
`environ`, then kwargs `environment`), uniformly: with no `env_json` its
dict is empty and the first alternative never fires. -/
theorem c8_environment_merge (c : Container) (kw : Kwargs) (eng : Engine) (k : String)
    (hr : c.running = false)
    (h1 : keysNodup c.environ) (h2 : keysNodup (kw.env_json.getD [])) :
    ((c.create_container kw eng).2.2).map (fun r => r.kwargs.env_json) = some none ∧
    ((c.create_container kw eng).2.2).map
        (fun r => dictGet (r.kwargs.environment.getD []) k) =
      some (optOr (dictGet (kw.env_json.getD []) k)
        (optOr (dictGet c.environ k) (dictGet (kw.environment.getD []) k))) := by
  cases hej : kw.env_json with
  | none =>
    constructor
    · simp [Container.create_container, hr, hej]
    · simp [Container.create_container, hr, hej]
      rw [dictGet_update _ _ h1]
      simp [optOr, dictGet]
  | some ej =>
    have h2e : keysNodup ej := by simpa [hej] using h2
    constructor
    · simp [Container.create_container, hr, hej]
    · simp [Container.create_container, hr, hej]
      rw [dictGet_update _ _ h2e, dictGet_update _ _ h1]

/-- A kwargs set with an explicit environment and a decoded `env_json`
mapping, both overlapping the instance environ on key `a`. -/
def sampleKwargs : Kwargs :=
  { environment := some [("a", "0"), ("d", "4")], env_json := some [("a", "2"), ("j", "9")] }

/-- A freshly constructed handle with `CTF_DOCKER_ENV="a=1,b=2"`. -/
def sampleInitContainer : Container :=
  Container.init "img" none false "output" true none none
    { ctf_docker_volumes := none, ctf_docker_env := some "a=1,b=2" }

/-- C8 witness: the merge identity at concrete kwargs and instance environ. -/
theorem c8_environment_merge_witness :
    ((sampleInitContainer.create_container sampleKwargs sampleEngine).2.2).map
        (fun r => r.kwargs.env_json) = some none ∧
    ((sampleInitContainer.create_container sampleKwargs sampleEngine).2.2).map
        (fun r => dictGet (r.kwargs.environment.getD []) "a") =
      some (optOr (dictGet (sampleKwargs.env_json.getD []) "a")
        (optOr (dictGet sampleInitContainer.environ "a")
          (dictGet (sampleKwargs.environment.getD []) "a"))) :=
  c8_environment_merge sampleInitContainer sampleKwargs sampleEngine "a" rfl
    (by unfold keysNodup; decide) (by unfold keysNodup; decide)

/-- C9: construction never raises on ambient override strings: an exception
inside either override `try:` block is swallowed, leaving the partially
parsed value (the environ built so far; `None` for the volumes block);
and the well-formed override `"a=1,b=2"` yields an environ mapping `a` to
`"1"` and `b` to `"2"` (a malformed middle item keeps the prefix parsed
before it). -/
theorem c9_construction_never_raises :
    (∀ s e d0, envTryBody (pySplit ',' s) [] = Except.error (e, d0) →
        initEnviron (some s) = d0) ∧
    (∀ s d0, envTryBody (pySplit ',' s) [] = Except.ok d0 →
        initEnviron (some s) = d0) ∧
    (∀ ex s, volumesTryBody ex s = Except.error PyError.attributeError →
        initVolumes ex (some s) = none) ∧
    dictGet (Container.init "img" none false "output" true none none
        { ctf_docker_volumes := none, ctf_docker_env := some "a=1,b=2" }).environ "a" =
      some "1" ∧
    dictGet (Container.init "img" none false "output" true none none
        { ctf_docker_volumes := none, ctf_docker_env := some "a=1,b=2" }).environ "b" =
      some "2" ∧
    (Container.init "img" none false "output" true none none
        { ctf_docker_volumes := none, ctf_docker_env := some "a=1,oops,b=2" }).environ =
      [("a", "1")] := by
  refine ⟨?_, ?_, ?_, ?_, ?_, ?_⟩
  · intro s e d0 h
    simp only [initEnviron, h]
  · intro s d0 h
    simp only [initEnviron, h]
  · intro ex s h
    simp only [initVolumes, h]
  · decide
  · decide
  · decide

/-- C9 witness: a malformed env override is swallowed with nothing parsed, a
well-formed one is parsed, and a clashing volumes override is swallowed with
the volumes left as `None`. -/
theorem c9_construction_never_raises_witness :
    initEnviron (some "oops") = [] ∧
    initEnviron (some "x=y") = [("x", "y")] ∧
    initVolumes (some ["v:w"]) (some "q:r") = none :=
  ⟨c9_construction_never_raises.1 "oops" PyError.valueError [] rfl,
    c9_construction_never_raises.2.1 "x=y" [("x", "y")] rfl,
    c9_construction_never_raises.2.2.1 (some ["v:w"]) "q:r" rfl⟩

/-- C10: when container removal fails on all 4 attempts, the error propagates
out of `stop` while the handle is left with `running` false but the container
reference still set: `self.container = None` runs only after a successful
removal. -/
theorem c10_failed_removal_keeps_reference (c : Container) (eng : Engine) (cid : String)
    (hc : c.container = some cid)
    (hfail : ∀ i, 1 ≤ i → i ≤ 4 → eng.removeOk i = false) :
    (c.stop eng).1.running = false ∧
    (c.stop eng).1.container = some cid ∧
    (c.stop eng).2.2 = some PyError.removalError := by
  have hrm := remove_container_all_fail eng.removeOk hfail
  unfold Container.stop
  by_cases hrs : (c.running && c.save_output) = true
  · rw [if_pos hrs, hc]
    unfold stopRemovePhase
    simp [hc, hrm]
  · rw [if_neg hrs]
    unfold stopRemovePhase
    simp [hc, hrm]

/-- C10 witness: the failed-removal state at a concrete handle and an engine
that refuses every removal. -/
theorem c10_failed_removal_keeps_reference_witness :
    (sampleContainer.stop sampleEngineRemoveFail).1.running = false ∧
    (sampleContainer.stop sampleEngineRemoveFail).1.container = some "abc123" ∧
    (sampleContainer.stop sampleEngineRemoveFail).2.2 = some PyError.removalError :=
  c10_failed_removal_keeps_reference sampleContainer sampleEngineRemoveFail "abc123" rfl
    (fun _ _ _ => rfl)
